import Mathlib

/-!
Shallow embedding of the configuration-validation core of
`knot_resolver_manager` (file `utils/modelling.py`): the untyped value
universe that parsed configuration documents inhabit, the recursive
validator/coercer `_validated_object_type`, and the `SchemaNode`
construction protocol.  Python exceptions become an explicit error type;
Python attribute machinery becomes explicit field lists.  Collaborator
classes whose sources are not in the repository snapshot (`ParsedTree`,
`CustomValueType`, the `is_*` helpers of `utils/types.py`, the exception
hierarchy) are modelled from the specification and marked as such.
-/

namespace KnotModelling

/-- An untyped runtime value, as flowing through `_validated_object_type`:
the scalars and containers of a parsed configuration document
(`None`, `int`, `str`, `bool`, `float`, `list`, `tuple`, `dict`),
plus instances of `CustomValueType` and constructed `SchemaNode`s.
A `vDict` stands both for a raw `dict` and for the `ParsedTree` wrapper
(modelled from the spec: a Normalized Tree map with unique string keys and
exact-key membership, the `parsing.py` source being absent).  A
`vCustom` carries the results of the custom type's `__str__` and
`__int__` (modelled from the spec: the Custom Leaf Value is opaque and
owns its own validation, `custom_types.py` being absent).  A `vSchema`
carries the saved `_source` and the ordered assigned fields. -/
inductive Value where
  | vNone : Value
  | vInt (n : Int) : Value
  | vStr (s : String) : Value
  | vBool (b : Bool) : Value
  | vFloat (r : String) : Value
  | vList (xs : List Value) : Value
  | vTuple (xs : List Value) : Value
  | vDict (es : List (String × Value)) : Value
  | vCustom (tyn : String) (sRepr : String) (iRepr : Int) : Value
  | vSchema (cls : String) (src : Value) (fields : List (String × Value)) : Value

/-- The exceptions the Python code can raise.  `schemaExc` is the
operator-facing `SchemaException(message, object_path)`; `runtimeError`
is Python's `RuntimeError` (schema-definition defects); `notImplemented`
is `NotImplementedError` (the float case); `valueError` and `dataExc`
are `ValueError` / `DataException` carrying `args[0]` when it is a
string; `pyError` stands for any other uncaught host error
(e.g. `TypeError` from iterating a non-iterable). -/
inductive Err where
  | schemaExc (msg : String) (path : String) : Err
  | runtimeError (msg : String) : Err
  | notImplemented (msg : String) : Err
  | valueError (msg : Option String) : Err
  | dataExc (msg : Option String) : Err
  | pyError (msg : String) : Err
deriving DecidableEq, Repr

/-- Python `str()` on a value, used both for the `str` coercion branch and
for interpolating values into error messages.  Containers are rendered in
Python's display style (cosmetic only: no claim pins a container
rendering). -/
def pyStr : Value → String
  | .vNone => "None"
  | .vInt n => toString n
  | .vStr s => s
  | .vBool b => if b then "True" else "False"
  | .vFloat r => r
  | .vList xs => "[" ++ pyStrJoin xs ++ "]"
  | .vTuple xs => "(" ++ pyStrJoin xs ++ ")"
  | .vDict es => "\x7b" ++ pyStrEntries es ++ "\x7d"
  | .vCustom _ s _ => s
  | .vSchema _ _ _ => "<schema instance>"
where
  /-- Comma-joined element renderings. -/
  pyStrJoin : List Value → String
    | [] => ""
    | [x] => pyStr x
    | x :: xs => pyStr x ++ ", " ++ pyStrJoin xs
  /-- Comma-joined `key: value` renderings. -/
  pyStrEntries : List (String × Value) → String
    | [] => ""
    | [(k, v)] => "'" ++ k ++ "': " ++ pyStr v
    | (k, v) :: es => "'" ++ k ++ "': " ++ pyStr v ++ ", " ++ pyStrEntries es

/-- Python `type(obj)` rendered as in an f-string, e.g. `<class 'bool'>`. -/
def pyTypeName : Value → String
  | .vNone => "<class 'NoneType'>"
  | .vInt _ => "<class 'int'>"
  | .vStr _ => "<class 'str'>"
  | .vBool _ => "<class 'bool'>"
  | .vFloat _ => "<class 'float'>"
  | .vList _ => "<class 'list'>"
  | .vTuple _ => "<class 'tuple'>"
  | .vDict _ => "<class 'dict'>"
  | .vCustom tyn _ _ => "<class '" ++ tyn ++ "'>"
  | .vSchema cls _ _ => "<class '" ++ cls ++ "'>"

/-- Python `==` on values, as used by the `Literal` branch
(`if obj == expected`).  The load-bearing quirk: `bool` is a subtype of
`int` in Python, so `True == 1` and `False == 0` hold.  Dict equality is
modelled entry-list-wise (literal constants in this code base are scalars,
so the container cases are never exercised). -/
def pyEq : Value → Value → Bool
  | .vNone, .vNone => true
  | .vInt a, .vInt b => a == b
  | .vBool a, .vInt b => (if a then (1 : Int) else 0) == b
  | .vInt a, .vBool b => a == (if b then (1 : Int) else 0)
  | .vBool a, .vBool b => a == b
  | .vStr a, .vStr b => a == b
  | .vFloat a, .vFloat b => a == b
  | .vCustom n s i, .vCustom n' s' i' => n == n' && s == s' && i == i'
  | .vList xs, .vList ys => pyEqList xs ys
  | .vTuple xs, .vTuple ys => pyEqList xs ys
  | .vDict xs, .vDict ys => pyEqEntries xs ys
  | _, _ => false
where
  /-- Element-wise Python equality of two lists. -/
  pyEqList : List Value → List Value → Bool
    | [], [] => true
    | x :: xs, y :: ys => pyEq x y && pyEqList xs ys
    | _, _ => false
  /-- Entry-wise Python equality of two dicts. -/
  pyEqEntries : List (String × Value) → List (String × Value) → Bool
    | [], [] => true
    | (k, v) :: xs, (k', v') :: ys => k == k' && pyEq v v' && pyEqEntries xs ys
    | _, _ => false

mutual

/-- The type descriptor: the `cls` argument of `_validated_object_type`,
i.e. the closed set of declared field shapes the validator dispatches on
(`NoneType`, `int`, `str`, `bool`, `float`, `Literal[c]`, `Union[...]`,
`List[t]`, `Tuple[...]`, `Dict[k,v]`, a `CustomValueType` subclass, a
nested `SchemaNode` subclass).  A custom-leaf descriptor carries the
type's name and its constructor `cls(obj, object_path)` as an abstract
function (modelled from the spec: the leaf type owns its own validation,
`custom_types.py` being absent).  Enumerations are not modelled: no claim
and no schema in the snapshot uses them. -/
inductive Ty where
  | tNone : Ty
  | tInt : Ty
  | tStr : Ty
  | tBool : Ty
  | tFloat : Ty
  | tLiteral (c : Value) : Ty
  | tUnion (vs : List Ty) : Ty
  | tList (t : Ty) : Ty
  | tTuple (ts : List Ty) : Ty
  | tDict (k v : Ty) : Ty
  | tCustom (tyn : String) (ctor : Value → String → Except Err Value) : Ty
  | tSchemaN (s : Schema) : Ty

/-- One declared field of a schema: its annotated name, its type
descriptor, the class-level default value (`getattr(cls, name)` when
present), and the transformation function `_name` (modelled as a function
of the effective source; the arity-1/arity-2 dispatch of
`_get_converted_value` is behaviourally invisible because the injected
`self` placeholder raises on any access). -/
inductive Field where
  | mk (name : String) (ty : Ty) (dflt : Option Value)
      (transform : Option (Value → Except Err Value)) : Field

/-- A `SchemaNode` subclass: its class name (used in defect messages),
the optional `_PREVIOUS_SCHEMA` link, the own `__annotations__` fields in
declaration order, and the `_validate` hook, modelled as a function of the
assigned fields returning `some args0` when it raises `ValueError`
(`args0 = none` for an argument-less raise). -/
inductive Schema where
  | mk (name : String) (prev : Option Schema) (fields : List Field)
      (validate : List (String × Value) → Option (Option String)) : Schema

end

/-- Name of a field. -/
def Field.name : Field → String
  | .mk n _ _ _ => n

/-- Type descriptor of a field. -/
def Field.ty : Field → Ty
  | .mk _ t _ _ => t

/-- Class-level default value of a field, when declared. -/
def Field.dflt : Field → Option Value
  | .mk _ _ d _ => d

/-- Transformation function of a field, when declared. -/
def Field.transform : Field → Option (Value → Except Err Value)
  | .mk _ _ _ f => f

/-- Class name of a schema. -/
def Schema.name : Schema → String
  | .mk n _ _ _ => n

/-- The `_PREVIOUS_SCHEMA` link of a schema. -/
def Schema.prev : Schema → Option Schema
  | .mk _ p _ _ => p

/-- Declared fields of a schema, in declaration order. -/
def Schema.fields : Schema → List Field
  | .mk _ _ fs _ => fs

/-- The `_validate` hook of a schema. -/
def Schema.validate : Schema → List (String × Value) → Option (Option String)
  | .mk _ _ _ v => v

/-- Rendering of a descriptor as Python renders the `cls` object in
f-strings (`<class 'int'>`, `typing.Union[...]`, ...); cosmetic, used
only inside error messages. -/
def tyName : Ty → String
  | .tNone => "<class 'NoneType'>"
  | .tInt => "<class 'int'>"
  | .tStr => "<class 'str'>"
  | .tBool => "<class 'bool'>"
  | .tFloat => "<class 'float'>"
  | .tLiteral c => "typing.Literal[" ++ pyStr c ++ "]"
  | .tUnion vs => "typing.Union[" ++ tyNameJoin vs ++ "]"
  | .tList t => "typing.List[" ++ tyName t ++ "]"
  | .tTuple ts => "typing.Tuple[" ++ tyNameJoin ts ++ "]"
  | .tDict k v => "typing.Dict[" ++ tyName k ++ ", " ++ tyName v ++ "]"
  | .tCustom tyn _ => "<class '" ++ tyn ++ "'>"
  | .tSchemaN s => "<class '" ++ s.name ++ "'>"
where
  /-- Comma-joined renderings of a descriptor list. -/
  tyNameJoin : List Ty → String
    | [] => ""
    | [t] => tyName t
    | t :: ts => tyName t ++ ", " ++ tyNameJoin ts

/-- Whether a descriptor is `NoneType` (the `is_none_type` helper of the
absent `utils/types.py`; modelled from the spec's Absent-type case). -/
def isNoneTy : Ty → Bool
  | .tNone => true
  | _ => false

/-- The `is_optional` helper of the absent `utils/types.py`.  Modelled
from the spec: optional types are the two-variant nothing-or-`T` unions. -/
def isOptional : Ty → Bool
  | .tUnion vs => vs.length == 2 && vs.any isNoneTy
  | _ => false

/-- The `is_internal_field_name` helper of the absent `utils/types.py`.
Modelled from the spec: internal entries such as `_PREVIOUS_SCHEMA` and
the underscore-prefixed transformation entry points are not data fields. -/
def isInternalFieldName (n : String) : Bool :=
  n.toList.headD 'a' == '_'

/-- Membership test of the effective source (`name in source`):
exact-key lookup for a mapping (`ParsedTree.__contains__`, modelled from
the spec), assigned-field lookup for a schema instance
(`SchemaNode.__contains__` via `hasattr`). -/
def srcContains (source : Value) (n : String) : Bool :=
  match source with
  | .vDict es => es.any (fun e => e.1 == n)
  | .vSchema _ _ fs => fs.any (fun e => e.1 == n)
  | _ => false

/-- Item access on the effective source (`source[name]`): exact-key
lookup for a mapping, assigned-field lookup (`__getitem__` via `getattr`)
for a schema instance.  Only invoked under `srcContains`. -/
def srcGet (source : Value) (n : String) : Value :=
  match source with
  | .vDict es => ((es.find? (fun e => e.1 == n)).map Prod.snd).getD .vNone
  | .vSchema _ _ fs => ((fs.find? (fun e => e.1 == n)).map Prod.snd).getD .vNone
  | _ => .vNone

/-- `SchemaNode.get_unparsed_data`: follow saved sources through schema
instances down to the original normalized tree. -/
def getUnparsedData : Value → Value
  | .vSchema _ src _ => getUnparsedData src
  | v => v

/-- Message of the aggregate union failure
(`f"Union \x7bcls\x7d could not be parsed - parsing of all variants failed."`). -/
def unionFailMsg (cls : Ty) : String :=
  "Union " ++ tyName cls ++ " could not be parsed - parsing of all variants failed."

/-- Message of the boolean-rejected-as-string failure (the Norway-problem
diagnostic). -/
def norwayMsg : String :=
  "Expected str, found bool. Be careful, that YAML parsers consider even"
    ++ " \"no\" and \"yes\" as a bool. Search for the Norway Problem for more"
    ++ " details. And please use quotes explicitly."

/-- Message of the float fail-fast (`NotImplementedError`). -/
def floatUnsupportedMsg : String :=
  "Floating point values are not supported in the parser."
    ++ " Please implement them and be careful with type coercions"

/-- Message of the missing-required-field failure
(`f"Missing attribute '\x7bname\x7d'."`). -/
def missingAttrMsg (n : String) : String :=
  "Missing attribute '" ++ n ++ "'."

/-- Message of the default/transformation conflict defect
(`RuntimeError`, naming `ClassName.field`). -/
def conflictMsg (clsName fieldName : String) : String :=
  "Field '" ++ clsName ++ "." ++ fieldName
    ++ "' has default value and transformation function at"
    ++ " the same time. That is now allowed. Store the default in the transformation function."

/-- Python `set` rendering of the unused key names, as interpolated into
the unused-keys message. -/
def keySetRepr (ks : List String) : String :=
  "\x7b" ++ String.intercalate ", " (ks.map (fun k => "'" ++ k ++ "'")) ++ "\x7d"

/-- Message of the unused-keys failure. -/
def unusedKeysMsg (ks : List String) : String :=
  "Keys " ++ keySetRepr ks
    ++ " in your configuration object are not part of the configuration schema."
    ++ " Are you using '-' instead of '_'?"

/-- The source keys never consumed by any field
(`source.keys() - used_keys`). -/
def unusedKeysOf (es : List (String × Value)) (used : List String) : List String :=
  (es.map Prod.fst).filter (fun k => !used.contains k)

/-- Python iteration over a value, as performed by the `List`/`Tuple`
comprehension and `zip`: lists and tuples yield their elements, dicts
their keys, strings their characters; everything else raises `TypeError`
(`none` here). -/
def pyIter : Value → Option (List Value)
  | .vList xs => some xs
  | .vTuple xs => some xs
  | .vDict es => some (es.map (fun e => Value.vStr e.1))
  | .vStr s => some (s.toList.map (fun c => Value.vStr (String.singleton c)))
  | _ => none

/-- The error translation of `_get_converted_value`: apply the
transformation function to the effective source; a raised `ValueError` or
`DataException` is re-raised as `SchemaException(msg, object_path)` with
`msg = e.args[0]` when that is a string and a fixed fallback otherwise
(`SchemaException` itself is a `DataException`, modelled from the spec:
a richer, already-structured failure is passed through with its own
message); every other exception propagates. -/
def convertedValue (tf : Value → Except Err Value) (source : Value)
    (objectPath : String) : Except Err Value :=
  match tf source with
  | .ok v => .ok v
  | .error (.valueError m) =>
      .error (.schemaExc (m.getD "Failed to validate value type") objectPath)
  | .error (.dataExc m) =>
      .error (.schemaExc (m.getD "Failed to validate value type") objectPath)
  | .error (.schemaExc m _) => .error (.schemaExc m objectPath)
  | .error e => .error e

/-- The tail of `SchemaNode.__init__` after the unused-key check: run the
`_validate` hook, wrapping a raised `ValueError` into
`SchemaException(args[0] or "Validation error", object_path)`, and on
success return the instance carrying the saved `_source` and the assigned
fields. -/
def postValidate (s : Schema) (savedSrc : Value) (fields : List (String × Value))
    (objectPath : String) : Except Err Value :=
  match s.validate fields with
  | none => .ok (.vSchema s.name savedSrc fields)
  | some m => .error (.schemaExc (m.getD "Validation error") objectPath)

mutual

/-- `_validated_object_type(cls, obj, object_path)`: the recursive
validator/coercer.  The branch order mirrors the source's `elif` chain:
`NoneType`, `Union` (whose trial loop catches only `SchemaException`),
the catch-all rejection of a `None` object for every remaining
descriptor, then `int` (exact type only, excluding `bool`), `str`
(coercing `str`/`float`/`int`/custom leaves, rejecting `bool` with the
Norway-problem diagnostic), `bool`, `float` (fail-fast
`NotImplementedError`), `Literal` (Python `==`), `Dict`, `List`,
`Tuple` (positional `zip`), exact-type passthrough, custom-leaf
construction, and nested-schema construction.  The unused
`default`/`use_default` parameters are omitted: no call site in the
repository sets `use_default`. -/
def validated : Ty → Value → String → Except Err Value
  | .tNone, obj, path =>
      match obj with
      | .vNone => .ok .vNone
      | _ => .error (.schemaExc ("Expected None, found '" ++ pyStr obj ++ "'.") path)
  | .tUnion vs, obj, path => tryVariants (Ty.tUnion vs) vs obj path
  | cls, .vNone, path =>
      .error (.schemaExc ("Unexpected value 'None' for type " ++ tyName cls) path)
  | .tInt, obj, path =>
      match obj with
      | .vInt n => .ok (.vInt n)
      | .vCustom _ _ i => .ok (.vInt i)
      | _ => .error (.schemaExc ("Expected int, found " ++ pyTypeName obj) path)
  | .tStr, obj, path =>
      match obj with
      | .vStr _ | .vFloat _ | .vInt _ | .vCustom _ _ _ => .ok (.vStr (pyStr obj))
      | .vBool _ => .error (.schemaExc norwayMsg path)
      | _ =>
          .error (.schemaExc
            ("Expected str (or number that would be cast to string), but found type "
              ++ pyTypeName obj) path)
  | .tBool, obj, path =>
      match obj with
      | .vBool b => .ok (.vBool b)
      | _ => .error (.schemaExc ("Expected bool, found " ++ pyTypeName obj) path)
  | .tFloat, _, _ => .error (.notImplemented floatUnsupportedMsg)
  | .tLiteral c, obj, path =>
      if pyEq obj c then .ok obj
      else
        .error (.schemaExc
          ("Literal " ++ tyName (Ty.tLiteral c) ++ " is not matched with the value "
            ++ pyStr obj) path)
  | .tDict kt vt, obj, path =>
      match obj with
      | .vDict es => (validatedEntries kt vt es path).map Value.vDict
      | _ =>
          .error (.schemaExc
            ("Expected dict-like object, but failed to access its .items() method. Value was "
              ++ pyStr obj) path)
  | .tList t, obj, path =>
      match pyIter obj with
      | some xs => (validatedElems t xs path).map Value.vList
      | none => .error (.pyError ("TypeError: " ++ pyTypeName obj ++ " object is not iterable"))
  | .tTuple ts, obj, path =>
      match pyIter obj with
      | some xs => (zipValidated ts xs path).map Value.vTuple
      | none => .error (.pyError ("TypeError: " ++ pyTypeName obj ++ " object is not iterable"))
  | .tCustom tyn ctor, obj, path =>
      match obj with
      | .vCustom tyn' s i => if tyn' == tyn then .ok (.vCustom tyn' s i) else ctor obj path
      | _ => ctor obj path
  | .tSchemaN s, obj, path =>
      match obj with
      | .vSchema n src fs =>
          if n == s.name then .ok (.vSchema n src fs)
          else construct s (some (Value.vSchema n src fs)) path
      | .vDict es => construct s (some (Value.vDict es)) path
      | _ =>
          .error (.schemaExc
            ("Expected 'dict' or 'SchemaNode' object, found '" ++ pyTypeName obj ++ "'") path)
termination_by cls obj _ => (sizeOf cls, sizeOf obj)

/-- The variant loop of the `Union` branch: try each variant against the
same node in declared order, swallowing only `SchemaException`; return
the first success; if every variant failed so, raise the single
aggregate failure at the union's own path.  `cls` is the whole union
descriptor, used only in the aggregate message. -/
def tryVariants (cls : Ty) (rem : List Ty) (obj : Value) (path : String) :
    Except Err Value :=
  match rem with
  | [] => .error (.schemaExc (unionFailMsg cls) path)
  | v :: rest =>
      match validated v obj path with
      | .ok r => .ok r
      | .error (.schemaExc _ _) => tryVariants cls rest obj path
      | .error e => .error e
termination_by (sizeOf rem, sizeOf obj)

/-- The element walk of the `List` branch: validate every element against
the inner descriptor at the index-qualified path `path ++ "[]"`. -/
def validatedElems (t : Ty) (xs : List Value) (path : String) :
    Except Err (List Value) :=
  match xs with
  | [] => .ok []
  | x :: rest =>
      match validated t x (path ++ "[]") with
      | .error e => .error e
      | .ok v =>
          match validatedElems t rest path with
          | .error e => .error e
          | .ok vs => .ok (v :: vs)
termination_by (sizeOf t, sizeOf xs)

/-- The positional walk of the `Tuple` branch: `zip` pairs declared
element descriptors with node elements and silently stops at the shorter
of the two lists; each pair is validated at the unchanged path. -/
def zipValidated (ts : List Ty) (xs : List Value) (path : String) :
    Except Err (List Value) :=
  match ts, xs with
  | [], _ => .ok []
  | _, [] => .ok []
  | t :: ts', x :: xs' =>
      match validated t x path with
      | .error e => .error e
      | .ok v =>
          match zipValidated ts' xs' path with
          | .error e => .error e
          | .ok vs => .ok (v :: vs)
termination_by (sizeOf ts, sizeOf xs)

/-- The entry walk of the `Dict` branch: validate every key against the
key descriptor at `path ++ " @ key " ++ k` and every value against the
value descriptor at `path ++ " @ value for key " ++ k`.  The validated
key is stored through its string form (with a string key descriptor this
is the unchanged key, the only shape the snapshot's schemas use). -/
def validatedEntries (kt vt : Ty) (es : List (String × Value)) (path : String) :
    Except Err (List (String × Value)) :=
  match es with
  | [] => .ok []
  | (k, v) :: rest =>
      match validated kt (Value.vStr k) (path ++ " @ key " ++ k) with
      | .error e => .error e
      | .ok kv =>
          match validated vt v (path ++ " @ value for key " ++ k) with
          | .error e => .error e
          | .ok vv =>
              match validatedEntries kt vt rest path with
              | .error e => .error e
              | .ok rs => .ok ((pyStr kv, vv) :: rs)
termination_by (sizeOf (Ty.tDict kt vt), sizeOf es)

/-- `SchemaNode.__init__(source, object_path)`: normalize an absent
source to an empty mapping, save the normalized source, construct the
`_PREVIOUS_SCHEMA` instance first when one is declared and use it as the
effective source, assign all fields, reject unconsumed keys of a mapping
effective source (the code guards on the source's truthiness, which for
the spec's Normalized Tree mapping is observationally the emptiness test:
an empty mapping has no unconsumed keys either way), then run the
`_validate` hook. -/
def construct : Schema → Option Value → String → Except Err Value
  | Schema.mk nm prevS sfields svalidate, source, objectPath =>
      let src := source.getD (Value.vDict [])
      match (match prevS with
             | some p => construct p (some src) objectPath
             | none => Except.ok src : Except Err Value) with
      | .error e => .error e
      | .ok eff =>
          match assignFields nm (some eff) sfields objectPath with
          | .error e => .error e
          | .ok (flds, used) =>
              match eff with
              | .vDict es =>
                  let unused := unusedKeysOf es used
                  if unused.isEmpty then
                    postValidate (Schema.mk nm prevS sfields svalidate) src flds objectPath
                  else .error (.schemaExc (unusedKeysMsg unused) objectPath)
              | _ => postValidate (Schema.mk nm prevS sfields svalidate) src flds objectPath
termination_by s _ _ => (sizeOf s, 0)

/-- `SchemaNode._assign_fields`: walk the declared fields in declaration
order, skipping internal names, assigning each and collecting the set of
consumed source keys. -/
def assignFields (clsName : String) (source : Option Value) (flds : List Field)
    (objectPath : String) : Except Err (List (String × Value) × List String) :=
  match flds with
  | [] => .ok ([], [])
  | f :: rest =>
      if isInternalFieldName f.name then assignFields clsName source rest objectPath
      else
        match assignOne clsName source f objectPath with
        | .error e => .error e
        | .ok (v, usedFlag) =>
            match assignFields clsName source rest objectPath with
            | .error e => .error e
            | .ok (vs, used) =>
                .ok ((f.name, v) :: vs, (if usedFlag then [f.name] else []) ++ used)
termination_by (sizeOf flds, 0)

/-- The per-field branch chain of `_assign_fields`: with no source at
all, assign the (validated) default; raise the `RuntimeError` defect when
the field carries both a default and a transformation function; else
dispatch the transformation function on the effective source; else take
the key's raw value from the source; else fall back to the default (or
`None` for an optional type); else raise the missing-attribute failure at
the schema's own path.  Returns the validated value and whether a source
key was consumed. -/
def assignOne (clsName : String) (source : Option Value) (f : Field)
    (objectPath : String) : Except Err (Value × Bool) :=
  match f with
  | .mk n ty df tf =>
      match source with
      | none =>
          (validated ty (df.getD .vNone) (objectPath ++ "/" ++ n)).map (fun v => (v, false))
      | some src =>
          match tf, df with
          | some _, some _ => .error (.runtimeError (conflictMsg clsName n))
          | some t, none =>
              match convertedValue t src objectPath with
              | .error e => .error e
              | .ok raw =>
                  (validated ty raw (objectPath ++ "/" ++ n)).map (fun v => (v, true))
          | none, _ =>
              if srcContains src n then
                (validated ty (srcGet src n) (objectPath ++ "/" ++ n)).map
                  (fun v => (v, true))
              else if df.isSome || isOptional ty then
                (validated ty (df.getD .vNone) (objectPath ++ "/" ++ n)).map
                  (fun v => (v, false))
              else .error (.schemaExc (missingAttrMsg n) objectPath)
termination_by (sizeOf f, 0)

end

/-- Whether a value is one Python's `str()` coercion accepts in the `str`
branch: `is_obj_type(obj, (str, float, int)) or isinstance(obj,
CustomValueType)` — the string, numeric and custom-leaf scalars. -/
def isStrCoercible : Value → Bool
  | .vStr _ => true
  | .vFloat _ => true
  | .vInt _ => true
  | .vCustom _ _ _ => true
  | _ => false

/-- Whether a validation outcome is the fail-fast unimplemented-feature
signal (`NotImplementedError`), as opposed to the operator-facing
structured validation failure. -/
def isUnimplementedSignal : Except Err Value → Bool
  | .error (.notImplemented _) => true
  | _ => false

/-- Whether a construction outcome is the fatal schema-definition defect
(`RuntimeError`), as opposed to the operator-facing `SchemaException`. -/
def isDefectSignal : Except Err Value → Bool
  | .error (.runtimeError _) => true
  | _ => false

/-- The test schema of the required-field claims: a single required
integer field `port` with no default and no transformation function. -/
def portSchema : Schema :=
  Schema.mk "PortSchema" none [Field.mk "port" .tInt none none] (fun _ => none)

/-- The test schema of the unused-key claim: a single string field
`name`. -/
def nameSchema : Schema :=
  Schema.mk "NameSchema" none [Field.mk "name" .tStr none none] (fun _ => none)

/-- `BaseSchema` of the schema-chaining claim: one validated integer
field `count`. -/
def baseSchema : Schema :=
  Schema.mk "BaseSchema" none [Field.mk "count" .tInt none none] (fun _ => none)

/-- The transformation function `_doubled` of the chaining claim: read
the already-typed `count` from the effective source (the intermediate
`BaseSchema` instance) and return `count * 2`; raise `ValueError` when
it is absent or untyped. -/
def doubledTf : Value → Except Err Value := fun src =>
  match srcGet src "count" with
  | .vInt n => .ok (.vInt (n * 2))
  | _ => .error (.valueError (some "count missing"))

/-- `DerivedSchema` of the schema-chaining claim: links `BaseSchema` as
its previous schema and computes `doubled` via `_doubled`. -/
def derivedSchema : Schema :=
  Schema.mk "DerivedSchema" (some baseSchema)
    [Field.mk "doubled" .tInt none (some doubledTf)] (fun _ => none)

/-- The defective schema of the default/transform-conflict claim: its
only field `x` carries both a class-level default and a transformation
function. -/
def conflictSchema : Schema :=
  Schema.mk "ConflictSchema" none
    [Field.mk "x" .tInt (some (.vInt 1)) (some (fun _ => .ok (.vInt 2)))] (fun _ => none)

/-- A defective schema whose conflicted field `x` is preceded by a
required field `y`: used to separate the conflict defect from an earlier
field's own failure. -/
def twoFieldConflictSchema : Schema :=
  Schema.mk "TwoFieldConflictSchema" none
    [Field.mk "y" .tInt none none,
     Field.mk "x" .tInt (some (.vInt 1)) (some (fun _ => .ok (.vInt 2)))] (fun _ => none)

/-- The union branch of the validator is exactly the variant loop. -/
theorem validated_union (vs : List Ty) (obj : Value) (path : String) :
    validated (.tUnion vs) obj path = tryVariants (.tUnion vs) vs obj path := by
  cases obj <;> simp [validated]

/-- When every remaining variant fails with a `SchemaException`, the
variant loop raises the single aggregate failure at the union's path. -/
theorem tryVariants_all_fail (cls : Ty) (vs : List Ty) (obj : Value) (path : String)
    (h : ∀ u ∈ vs, ∃ m p', validated u obj path = .error (.schemaExc m p')) :
    tryVariants cls vs obj path = .error (.schemaExc (unionFailMsg cls) path) := by
  induction vs with
  | nil => simp [tryVariants]
  | cons v rest ih =>
    obtain ⟨m, p', hv⟩ := h v (List.mem_cons_self v rest)
    simp [tryVariants, hv]
    exact ih (fun u hu => h u (List.mem_cons_of_mem _ hu))

/-- When every variant before `v` fails with a `SchemaException` and `v`
succeeds, the variant loop returns the result of `v`. -/
theorem tryVariants_first_success (cls : Ty) (pre : List Ty) (v : Ty) (post : List Ty)
    (obj : Value) (path : String) (res : Value)
    (hpre : ∀ u ∈ pre, ∃ m p', validated u obj path = .error (.schemaExc m p'))
    (hv : validated v obj path = .ok res) :
    tryVariants cls (pre ++ v :: post) obj path = .ok res := by
  induction pre with
  | nil => simp [tryVariants, hv]
  | cons u rest ih =>
    obtain ⟨m, p', hu⟩ := hpre u (List.mem_cons_self u rest)
    simp [tryVariants, hu]
    exact ih (fun w hw => hpre w (List.mem_cons_of_mem _ hw))

/-- A successful positional tuple walk yields exactly
`min (descriptor count) (element count)` results: `zip` truncation. -/
theorem zipValidated_ok_length (ts : List Ty) (xs : List Value) (path : String)
    (ys : List Value) (h : zipValidated ts xs path = .ok ys) :
    ys.length = min ts.length xs.length := by
  induction ts generalizing xs ys with
  | nil =>
    simp [zipValidated] at h
    simp [← h]
  | cons t ts ih =>
    cases xs with
    | nil =>
      simp [zipValidated] at h
      simp [h]
    | cons x xs =>
      simp only [zipValidated] at h
      cases hv : validated t x path with
      | error e => simp [hv] at h
      | ok v =>
        simp only [hv] at h
        cases hz : zipValidated ts xs path with
        | error e => simp [hz] at h
        | ok vs =>
          simp only [hz] at h
          cases h
          simp [List.length_cons, ih xs vs hz]
          omega

/-- A successful construction from a source returns an instance of the
schema's class carrying exactly the saved source. -/
theorem construct_ok_source (s : Schema) (src : Value) (path : String) (inst : Value)
    (h : construct s (some src) path = .ok inst) :
    ∃ fs, inst = .vSchema s.name src fs := by
  cases s with
  | mk nm prevS sfields svalidate =>
    rw [construct.eq_def] at h
    simp only [postValidate, Option.getD] at h
    repeat' split at h
    all_goals try exact Except.noConfusion h
    all_goals injection h with h
    all_goals subst h
    all_goals exact ⟨_, rfl⟩

/-- C1: for every union descriptor and every node, validation tries the
variant descriptors in declared order against the same node: when every
variant before `v` fails with a structured validation failure and `v`
succeeds, the union returns `v`'s result, and when every variant so
fails the union raises a single aggregate failure carrying the union's
own path.  In particular, for `Union[int, str]`, the integer scalar `5`
validates to the integer `5`, while the string scalar `"5"` makes the
integer variant fail and the string variant succeed, yielding the string
`"5"`. -/
theorem c1_union_declared_order :
    (∀ (pre : List Ty) (v : Ty) (post : List Ty) (obj : Value) (path : String) (res : Value),
        (∀ u ∈ pre, ∃ m p', validated u obj path = .error (.schemaExc m p')) →
        validated v obj path = .ok res →
        validated (.tUnion (pre ++ v :: post)) obj path = .ok res)
    ∧ (∀ (vs : List Ty) (obj : Value) (path : String),
        (∀ u ∈ vs, ∃ m p', validated u obj path = .error (.schemaExc m p')) →
        validated (.tUnion vs) obj path
          = .error (.schemaExc (unionFailMsg (.tUnion vs)) path))
    ∧ validated (.tUnion [.tInt, .tStr]) (.vInt 5) "/" = .ok (.vInt 5)
    ∧ validated (.tUnion [.tInt, .tStr]) (.vStr "5") "/" = .ok (.vStr "5") := by
  refine ⟨?_, ?_, by simp [validated, tryVariants, pyStr],
    by simp [validated, tryVariants, pyStr]⟩
  · intro pre v post obj path res hpre hv
    rw [validated_union]
    exact tryVariants_first_success _ pre v post obj path res hpre hv
  · intro vs obj path h
    rw [validated_union]
    exact tryVariants_all_fail _ vs obj path h

/-- Witness for C1: `Union[int, str]` on the integer `7` succeeds at the
first variant, and on the boolean `true` both variants fail and the
single aggregate failure is raised at the union's path. -/
theorem c1_union_declared_order_witness :
    validated (.tUnion [.tInt, .tStr]) (.vInt 7) "/" = .ok (.vInt 7)
    ∧ validated (.tUnion [.tInt, .tStr]) (.vBool true) "/"
        = .error (.schemaExc (unionFailMsg (.tUnion [.tInt, .tStr])) "/") := by
  constructor
  · exact c1_union_declared_order.1 [] .tInt [.tStr] (.vInt 7) "/" (.vInt 7)
      (by intro u hu; simp at hu) (by simp [validated])
  · refine c1_union_declared_order.2.1 [.tInt, .tStr] (.vBool true) "/" ?_
    intro u hu
    simp only [List.mem_cons, List.not_mem_nil, or_false] at hu
    rcases hu with rfl | rfl
    · exact ⟨"Expected int, found " ++ pyTypeName (.vBool true), "/", by simp [validated]⟩
    · exact ⟨norwayMsg, "/", by simp [validated]⟩

/-- Counterexample for C2: constructing the schema with the required
integer field `port` from the empty mapping fails with the message
`Missing attribute 'port'.` at the schema's own object path — here the
root path `""`, not `/port` as the claim states (the raise site passes
`object_path`, not `object_path/name`). -/
theorem c2_counterexample :
    construct portSchema (some (.vDict [])) "" = .error (.schemaExc (missingAttrMsg "port") "")
    ∧ "" ≠ "/port" := by
  refine ⟨?_, by decide⟩
  simp [construct, portSchema, assignFields, assignOne, isInternalFieldName, srcContains,
    isOptional, missingAttrMsg, Field.name, Field.ty, Field.dflt, Field.transform]

/-- C2 (amended): constructing a schema with a required integer field
`port` (no default, no transformation, not optional) from the empty
mapping fails with a structured validation failure whose message is
`Missing attribute 'port'.` and whose path is the schema's own object
path — the field name appears in the message, not in the path. -/
theorem c2_missing_attr_at_schema_path :
    ∀ (path : String),
      construct portSchema (some (.vDict [])) path
        = .error (.schemaExc (missingAttrMsg "port") path) := by
  intro path
  simp [construct, portSchema, assignFields, assignOne, isInternalFieldName, srcContains,
    isOptional, missingAttrMsg, Field.name, Field.ty, Field.dflt, Field.transform]

/-- Witness for C2 at a concrete non-root object path. -/
theorem c2_missing_attr_witness :
    construct portSchema (some (.vDict [])) "/nested"
      = .error (.schemaExc (missingAttrMsg "port") "/nested") :=
  c2_missing_attr_at_schema_path "/nested"

/-- Counterexample for C3: in a schema whose conflicted field `x` is
preceded by a required field `y`, construction from the empty mapping
aborts with the ordinary operator-facing `SchemaException` for the
missing `y`, not with the schema-definition defect — so the conflict
does not abort construction for every input of every such schema. -/
theorem c3_counterexample :
    construct twoFieldConflictSchema (some (.vDict [])) ""
        = .error (.schemaExc (missingAttrMsg "y") "")
    ∧ isDefectSignal (construct twoFieldConflictSchema (some (.vDict [])) "") = false := by
  have h : construct twoFieldConflictSchema (some (.vDict [])) ""
      = .error (.schemaExc (missingAttrMsg "y") "") := by
    simp [construct, twoFieldConflictSchema, assignFields, assignOne, isInternalFieldName,
      srcContains, isOptional, missingAttrMsg, Field.name, Field.ty, Field.dflt, Field.transform]
  exact ⟨h, by rw [h]; rfl⟩

/-- C3 (amended): when field assignment reaches the conflicted field —
in particular whenever the field carrying both a class-level default and
a transformation function is the schema's first declared field —
construction aborts with the fatal `RuntimeError` defect (not the
operator-facing failure type) for every input source, including the
empty mapping; an earlier field's own failure, however, can preempt the
defect. -/
theorem c3_conflict_defect_when_reached_first :
    ∀ (nm fx : String) (ty : Ty) (dv : Value) (tf : Value → Except Err Value)
      (rest : List Field) (hook : List (String × Value) → Option (Option String))
      (source : Option Value) (path : String),
      isInternalFieldName fx = false →
      construct (Schema.mk nm none (Field.mk fx ty (some dv) (some tf) :: rest) hook) source path
        = .error (.runtimeError (conflictMsg nm fx)) := by
  intro nm fx ty dv tf rest hook source path hfx
  rw [construct.eq_def]
  simp [assignFields, assignOne, hfx, Field.name, Field.ty, Field.dflt, Field.transform]

/-- Witness for C3: the single-field conflicted schema aborts with the
`RuntimeError` defect on the empty mapping. -/
theorem c3_conflict_defect_witness :
    construct conflictSchema (some (.vDict [])) ""
      = .error (.runtimeError (conflictMsg "ConflictSchema" "x")) := by
  have h := c3_conflict_defect_when_reached_first "ConflictSchema" "x" .tInt (.vInt 1)
    (fun _ => .ok (.vInt 2)) [] (fun _ => none) (some (.vDict [])) "" (by decide)
  exact h

/-- C4: for every schema (with no previous-schema link) constructed from
a mapping source, once field assignment has succeeded, construction
fails naming the unconsumed keys whenever some source key was consumed
by no field, and proceeds past the check (to the `_validate` hook)
exactly when the set of unconsumed keys is empty; in particular the
schema with only field `name` given `{"name": "a", "nmae": "b"}` fails
naming `nmae`. -/
theorem c4_unused_key_detection :
    (∀ (nm : String) (sfields : List Field)
       (hook : List (String × Value) → Option (Option String))
       (es : List (String × Value)) (path : String)
       (flds : List (String × Value)) (used : List String),
        assignFields nm (some (.vDict es)) sfields path = .ok (flds, used) →
        (unusedKeysOf es used ≠ [] →
          construct (Schema.mk nm none sfields hook) (some (.vDict es)) path
            = .error (.schemaExc (unusedKeysMsg (unusedKeysOf es used)) path))
        ∧ (unusedKeysOf es used = [] →
          construct (Schema.mk nm none sfields hook) (some (.vDict es)) path
            = postValidate (Schema.mk nm none sfields hook) (.vDict es) flds path))
    ∧ construct nameSchema (some (.vDict [("name", .vStr "a"), ("nmae", .vStr "b")])) ""
        = .error (.schemaExc (unusedKeysMsg ["nmae"]) "") := by
  constructor
  · intro nm sfields hook es path flds used h
    constructor
    · intro hne
      rw [construct.eq_def]
      simp [h, hne]
    · intro he
      rw [construct.eq_def]
      simp [h, he]
  · simp [construct, nameSchema, assignFields, assignOne, isInternalFieldName, srcContains,
      srcGet, validated, isOptional, unusedKeysOf, unusedKeysMsg, postValidate,
      Field.name, Field.ty, Field.dflt, Field.transform, pyStr, Except.map,
      Schema.validate, Schema.name]

/-- Witness for C4: with the only source key consumed, construction
proceeds past the unused-key check to the `_validate` hook. -/
theorem c4_unused_key_witness :
    construct nameSchema (some (.vDict [("name", .vStr "a")])) ""
      = postValidate nameSchema (.vDict [("name", .vStr "a")]) [("name", .vStr "a")] "" := by
  have h := (c4_unused_key_detection.1 "NameSchema" [Field.mk "name" .tStr none none]
    (fun _ => none) [("name", .vStr "a")] "" [("name", .vStr "a")] ["name"]
    (by simp [assignFields, assignOne, isInternalFieldName, srcContains, srcGet, validated,
      Field.name, Field.ty, Field.dflt, Field.transform, pyStr, Except.map])).2
    (by simp [unusedKeysOf])
  exact h

/-- C5: for every boolean scalar, validation against the integer
descriptor fails (booleans are never accepted as integers), and
validation against the string descriptor fails with the dedicated
diagnostic about ambiguous truthy/falsy spellings; string validation
succeeds, with the coerced string form, exactly for the string, numeric
and custom-leaf scalars. -/
theorem c5_bool_exclusion_and_str_coercion :
    ∀ (b : Bool) (obj : Value) (path : String),
      validated .tInt (.vBool b) path
          = .error (.schemaExc ("Expected int, found " ++ pyTypeName (.vBool b)) path)
      ∧ validated .tStr (.vBool b) path = .error (.schemaExc norwayMsg path)
      ∧ (isStrCoercible obj = true → validated .tStr obj path = .ok (.vStr (pyStr obj)))
      ∧ (isStrCoercible obj = false → ∀ v, validated .tStr obj path ≠ .ok v) := by
  intro b obj path
  refine ⟨by simp [validated], by simp [validated], ?_, ?_⟩
  · intro h
    cases obj <;> simp_all [isStrCoercible, validated]
  · intro h v
    cases obj <;> simp_all [isStrCoercible, validated]

/-- Witness for C5 at the boolean `true` and the integer scalar `5`. -/
theorem c5_bool_exclusion_witness :
    validated .tInt (.vBool true) "/"
        = .error (.schemaExc ("Expected int, found " ++ pyTypeName (.vBool true)) "/")
    ∧ validated .tStr (.vBool true) "/" = .error (.schemaExc norwayMsg "/")
    ∧ validated .tStr (.vInt 5) "/" = .ok (.vStr (pyStr (.vInt 5))) := by
  refine ⟨(c5_bool_exclusion_and_str_coercion true (.vInt 5) "/").1,
    (c5_bool_exclusion_and_str_coercion true (.vInt 5) "/").2.1,
    (c5_bool_exclusion_and_str_coercion true (.vInt 5) "/").2.2.1 (by rfl)⟩

/-- C6: for every schema declaring a previous-schema link, construction
first fully constructs an instance of the earlier schema from the source
and passes that validated instance, as the effective source, to the
current schema's transformation functions: whenever the earlier schema's
construction yields the instance `eff`, the transformation function
receives exactly `eff`, its (validated) result becomes the field's
value, and the constructed instance still records the original source. -/
theorem c6_previous_schema_chaining :
    ∀ (prevS : Schema) (nm fx : String) (ty : Ty) (tf : Value → Except Err Value)
      (src : Value) (path : String) (eff raw v : Value),
      isInternalFieldName fx = false →
      construct prevS (some src) path = .ok eff →
      tf eff = .ok raw →
      validated ty raw (path ++ "/" ++ fx) = .ok v →
      construct (Schema.mk nm (some prevS) [Field.mk fx ty none (some tf)] (fun _ => none))
          (some src) path
        = .ok (.vSchema nm src [(fx, v)]) := by
  intro prevS nm fx ty tf src path eff raw v hfx hprev htf hval
  cases prevS with
  | mk pnm pp pf pv =>
    obtain ⟨fs, rfl⟩ := construct_ok_source _ src path eff hprev
    simp only [Schema.name] at hprev htf
    rw [construct.eq_def]
    simp [hprev, assignFields, assignOne, hfx, convertedValue, htf, hval, postValidate,
      Field.name, Field.ty, Field.dflt, Field.transform, Schema.name, Schema.validate,
      Except.map]

/-- Witness for C6: `DerivedSchema` chains `BaseSchema`; the source
`{"count": 3}` yields the intermediate typed `count = 3` and the
transformed `doubled == 6`. -/
theorem c6_previous_schema_chaining_witness :
    construct derivedSchema (some (.vDict [("count", .vInt 3)])) ""
      = .ok (.vSchema "DerivedSchema" (.vDict [("count", .vInt 3)]) [("doubled", .vInt 6)]) := by
  have h := c6_previous_schema_chaining baseSchema "DerivedSchema" "doubled" .tInt doubledTf
    (.vDict [("count", .vInt 3)]) ""
    (.vSchema "BaseSchema" (.vDict [("count", .vInt 3)]) [("count", .vInt 3)])
    (.vInt 6) (.vInt 6)
    (by rfl)
    (by simp [construct, baseSchema, assignFields, assignOne, isInternalFieldName, srcContains,
      srcGet, validated, unusedKeysOf, postValidate, Field.name, Field.ty, Field.dflt,
      Field.transform, Schema.name, Schema.validate, Except.map])
    (by simp [doubledTf, srcGet])
    (by simp [validated])
  exact h

/-- C7: for every schema and every mapping source on which construction
succeeds, the instance exposes exactly the original normalized tree, and
validating that exposed tree against the same schema succeeds again with
the identical instance — hence with equal fields (construction is a pure
function here, and `get_unparsed_data` returns the saved source). -/
theorem c7_revalidation_idempotent :
    ∀ (s : Schema) (es : List (String × Value)) (path : String) (inst : Value),
      construct s (some (.vDict es)) path = .ok inst →
      getUnparsedData inst = .vDict es
      ∧ construct s (some (getUnparsedData inst)) path = .ok inst := by
  intro s es path inst h
  obtain ⟨fs, rfl⟩ := construct_ok_source s (.vDict es) path inst h
  have hg : getUnparsedData (Value.vSchema s.name (.vDict es) fs) = .vDict es := by
    simp [getUnparsedData]
  exact ⟨hg, by rw [hg]; exact h⟩

/-- Witness for C7: revalidating the exposed tree of a concrete
successful construction returns the identical instance. -/
theorem c7_revalidation_idempotent_witness :
    getUnparsedData (.vSchema "NameSchema" (.vDict [("name", .vStr "a")]) [("name", .vStr "a")])
        = .vDict [("name", .vStr "a")]
    ∧ construct nameSchema
        (some (getUnparsedData
          (.vSchema "NameSchema" (.vDict [("name", .vStr "a")]) [("name", .vStr "a")]))) ""
        = .ok (.vSchema "NameSchema" (.vDict [("name", .vStr "a")]) [("name", .vStr "a")]) := by
  exact c7_revalidation_idempotent nameSchema [("name", .vStr "a")] ""
    (.vSchema "NameSchema" (.vDict [("name", .vStr "a")]) [("name", .vStr "a")])
    (by simp [construct, nameSchema, assignFields, assignOne, isInternalFieldName, srcContains,
      srcGet, validated, unusedKeysOf, postValidate, Field.name, Field.ty, Field.dflt,
      Field.transform, Schema.name, Schema.validate, Except.map, pyStr])

/-- Counterexample for C8: on the `None` node the floating-point
descriptor does not fail with the unimplemented-feature signal — the
catch-all `None` rejection fires first and raises an ordinary structured
validation failure, so the claim's "for every node" is false. -/
theorem c8_counterexample :
    validated .tFloat .vNone "/"
        = .error (.schemaExc ("Unexpected value 'None' for type " ++ tyName .tFloat) "/")
    ∧ isUnimplementedSignal (validated .tFloat .vNone "/") = false := by
  have h : validated .tFloat .vNone "/"
      = .error (.schemaExc ("Unexpected value 'None' for type " ++ tyName .tFloat) "/") := by
    simp [validated]
  exact ⟨h, by rw [h]; rfl⟩

/-- C8 (amended): for every node other than `None`, validating against
the floating-point descriptor fails fast with the unimplemented-feature
signal (`NotImplementedError`), distinct from the structured validation
failure; as the leading variant of a union it propagates out of the
variant trial instead of being absorbed as an ordinary variant failure
(on the `None` node the float descriptor instead yields an ordinary
validation failure, which a union does absorb). -/
theorem c8_float_failfast_nonnone :
    ∀ (obj : Value) (path : String) (post : List Ty),
      obj ≠ .vNone →
      validated .tFloat obj path = .error (.notImplemented floatUnsupportedMsg)
      ∧ validated (.tUnion (.tFloat :: post)) obj path
          = .error (.notImplemented floatUnsupportedMsg) := by
  intro obj path post h
  have h1 : validated .tFloat obj path = .error (.notImplemented floatUnsupportedMsg) := by
    cases obj <;> simp_all [validated]
  refine ⟨h1, ?_⟩
  rw [validated_union]
  simp [tryVariants, h1]

/-- Witness for C8 on the integer node `1`, alone and as the
never-reached second variant behind `float`. -/
theorem c8_float_failfast_witness :
    validated .tFloat (.vInt 1) "/" = .error (.notImplemented floatUnsupportedMsg)
    ∧ validated (.tUnion [.tFloat, .tInt]) (.vInt 1) "/"
        = .error (.notImplemented floatUnsupportedMsg) :=
  c8_float_failfast_nonnone (.vInt 1) "/" [.tInt] (by simp)

/-- C9: tuple validation pairs declared element descriptors with
sequence elements strictly by position and silently truncates to the
shorter length: every success has exactly
`min (descriptor count) (element count)` components, an extra node
element is dropped, and an extra declared position is dropped, with no
length-mismatch failure. -/
theorem c9_tuple_positional_truncation :
    (∀ (ts : List Ty) (xs : List Value) (path : String) (r : Value),
        validated (.tTuple ts) (.vList xs) path = .ok r →
        ∃ ys, r = .vTuple ys ∧ ys.length = min ts.length xs.length)
    ∧ validated (.tTuple [.tInt]) (.vList [.vInt 5, .vStr "x"]) "/" = .ok (.vTuple [.vInt 5])
    ∧ validated (.tTuple [.tInt, .tStr]) (.vList [.vInt 5]) "/" = .ok (.vTuple [.vInt 5]) := by
  refine ⟨?_, by simp [validated, zipValidated, pyIter, Except.map],
    by simp [validated, zipValidated, pyIter, Except.map]⟩
  intro ts xs path r h
  simp only [validated, pyIter] at h
  cases hz : zipValidated ts xs path with
  | error e => rw [hz] at h; simp [Except.map] at h
  | ok ys =>
    rw [hz] at h
    simp only [Except.map] at h
    injection h with h
    exact ⟨ys, h.symm, zipValidated_ok_length ts xs path ys hz⟩

/-- Witness for C9: the successful validation of a two-element sequence
against a one-descriptor tuple has exactly `min 1 2 = 1` components. -/
theorem c9_tuple_positional_truncation_witness :
    ∃ ys, (Value.vTuple [.vInt 5] : Value) = .vTuple ys
      ∧ ys.length = min ([Ty.tInt] : List Ty).length ([Value.vInt 5, Value.vStr "x"]).length := by
  exact c9_tuple_positional_truncation.1 [.tInt] [.vInt 5, .vStr "x"] "/" (.vTuple [.vInt 5])
    (by simp [validated, zipValidated, pyIter, Except.map])

/-- C10: literal-constant validation compares with plain Python
equality, under which `True == 1` and `False == 0`, so the boolean
`true` validates against the literal descriptor for the integer `1`
(and `false` against `0`), returned unchanged — even though the integer
descriptor itself rejects booleans. -/
theorem c10_literal_accepts_bool_for_int_constant :
    validated (.tLiteral (.vInt 1)) (.vBool true) "/" = .ok (.vBool true)
    ∧ validated (.tLiteral (.vInt 0)) (.vBool false) "/" = .ok (.vBool false)
    ∧ validated .tInt (.vBool true) "/"
        = .error (.schemaExc ("Expected int, found " ++ pyTypeName (.vBool true)) "/") := by
  refine ⟨by simp [validated, pyEq], by simp [validated, pyEq], by simp [validated]⟩

end KnotModelling
